import Mathlib

/-!
Shallow embedding of the fireworkers `FireworkersDataHelper` (data-helper.ts),
the `update` transport operation (update.ts) and the `DBProvider` singleton
(db-provider.ts), together with proofs of the specification claims about them.

Native JavaScript values are modelled by the inductive `NativeValue`; the
Firestore wire value union by `Value`; thrown `Error`s become `Except String`
results carrying the exact message the source throws.
-/

namespace Fireworkers

/-- Native JS values as the helper manipulates them: `undefined`, `null`,
booleans, numbers (the model restricts numerics to integers), strings,
arrays and plain string-keyed objects. -/
inductive NativeValue : Type where
  | undef : NativeValue
  | null : NativeValue
  | bool (b : Bool) : NativeValue
  | num (n : Int) : NativeValue
  | str (s : String) : NativeValue
  | arr (items : List NativeValue) : NativeValue
  | obj (fields : List (String × NativeValue)) : NativeValue
deriving Repr

/-- Well-founded induction principle for `NativeValue` that hands the
inductive hypothesis to every array element and object field value. -/
theorem NativeValue.inductionOn (P : NativeValue → Prop)
    (hundef : P .undef) (hnull : P .null)
    (hbool : ∀ b, P (.bool b)) (hnum : ∀ n, P (.num n))
    (hstr : ∀ s, P (.str s))
    (harr : ∀ items, (∀ x ∈ items, P x) → P (.arr items))
    (hobj : ∀ fields, (∀ kv ∈ fields, P kv.2) → P (.obj fields)) :
    ∀ v, P v
  | .undef => hundef
  | .null => hnull
  | .bool b => hbool b
  | .num n => hnum n
  | .str s => hstr s
  | .arr items => harr items (fun x hx =>
      have : sizeOf x < 1 + sizeOf items :=
        Nat.lt_of_lt_of_le (List.sizeOf_lt_of_mem hx) (by omega)
      NativeValue.inductionOn P hundef hnull hbool hnum hstr harr hobj x)
  | .obj fields => hobj fields (fun kv hkv =>
      have hlt : sizeOf kv < 1 + sizeOf fields :=
        Nat.lt_of_lt_of_le (List.sizeOf_lt_of_mem hkv) (by omega)
      have : sizeOf kv.2 < 1 + sizeOf fields := by
        cases kv with
        | mk k v => simp only [Prod.mk.sizeOf_spec] at hlt ⊢; omega
      NativeValue.inductionOn P hundef hnull hbool hnum hstr harr hobj kv.2)
termination_by v => sizeOf v

/-- Firestore wire values (types.ts `Value`), restricted to the variants the
modelled code can produce. -/
inductive Value : Type where
  | nullValue : Value
  | booleanValue (b : Bool) : Value
  | integerValue (n : Int) : Value
  | stringValue (s : String) : Value
  | referenceValue (r : String) : Value
  | arrayValue (values : List Value) : Value
  | mapValue (fields : List (String × Value)) : Value
deriving Repr

/-- A Firestore DB session handle: `{ project_id, jwt }` (types.ts `DB`). -/
structure DB : Type where
  project_id : String
  jwt : String
deriving DecidableEq, Repr

/-- Thrown JS `Error`s are modelled by their message string. -/
abbrev JsError := String

mutual

/-- `FireworkersDataHelper.replaceUndefinedWithNull` (data-helper.ts):
`undefined` becomes `null`; arrays and objects are rebuilt with each
element / field value transformed recursively; everything else is returned
unchanged. -/
def replaceUndefinedWithNull : NativeValue → NativeValue
  | .undef => .null
  | .arr items => .arr (replaceUndefinedWithNullList items)
  | .obj fields => .obj (replaceUndefinedWithNullObj fields)
  | v => v

/-- Element-wise recursion of `replaceUndefinedWithNull` over an array
(the source's `value.map((item) => this.replaceUndefinedWithNull(item))`). -/
def replaceUndefinedWithNullList : List NativeValue → List NativeValue
  | [] => []
  | x :: xs => replaceUndefinedWithNull x :: replaceUndefinedWithNullList xs

/-- Field-wise recursion of `replaceUndefinedWithNull` over an object's
entries (the source's `Object.entries(...).map(([key, val]) => ...)`). -/
def replaceUndefinedWithNullObj :
    List (String × NativeValue) → List (String × NativeValue)
  | [] => []
  | (k, v) :: kvs => (k, replaceUndefinedWithNull v) :: replaceUndefinedWithNullObj kvs

end

mutual

/-- Modelled from the spec: `convert_field_to_value` (ValueCodec `encode`,
fields.ts, not under src/). Null or absent input encodes to the null
variant, booleans to the boolean variant, whole numbers to the integer
variant, strings to the string variant; arrays and maps encode recursively. -/
def convert_field_to_value : NativeValue → Value
  | .undef => .nullValue
  | .null => .nullValue
  | .bool b => .booleanValue b
  | .num n => .integerValue n
  | .str s => .stringValue s
  | .arr items => .arrayValue (convertList items)
  | .obj fields => .mapValue (convertObj fields)

/-- Modelled from the spec: element-wise encoding of an array. -/
def convertList : List NativeValue → List Value
  | [] => []
  | x :: xs => convert_field_to_value x :: convertList xs

/-- Modelled from the spec: field-wise encoding of a map. -/
def convertObj : List (String × NativeValue) → List (String × Value)
  | [] => []
  | (k, v) :: kvs => (k, convert_field_to_value v) :: convertObj kvs

end

theorem replaceUndefinedWithNullList_eq_map (l : List NativeValue) :
    replaceUndefinedWithNullList l = l.map replaceUndefinedWithNull := by
  induction l with
  | nil => rfl
  | cons x xs ih => simp [replaceUndefinedWithNullList, ih]

theorem replaceUndefinedWithNullObj_eq_map (l : List (String × NativeValue)) :
    replaceUndefinedWithNullObj l =
      l.map (fun kv => (kv.1, replaceUndefinedWithNull kv.2)) := by
  induction l with
  | nil => rfl
  | cons kv kvs ih =>
    cases kv with
    | mk k v => simp [replaceUndefinedWithNullObj, ih]

mutual

/-- The sanitization transform exactly as the claim states it: every
`undefined` (at any depth) replaced by `null`, every other value and all
structure (array order, object key list) left unchanged. -/
def sanitizeSpec : NativeValue → NativeValue
  | .undef => .null
  | .null => .null
  | .bool b => .bool b
  | .num n => .num n
  | .str s => .str s
  | .arr items => .arr (sanitizeSpecList items)
  | .obj fields => .obj (sanitizeSpecObj fields)

/-- Spec-side sanitization of array elements. -/
def sanitizeSpecList : List NativeValue → List NativeValue
  | [] => []
  | x :: xs => sanitizeSpec x :: sanitizeSpecList xs

/-- Spec-side sanitization of object entries. -/
def sanitizeSpecObj : List (String × NativeValue) → List (String × NativeValue)
  | [] => []
  | (k, v) :: kvs => (k, sanitizeSpec v) :: sanitizeSpecObj kvs

end

mutual

/-- `true` iff the value contains no `undefined` anywhere. -/
def noUndefined : NativeValue → Bool
  | .undef => false
  | .arr items => noUndefinedList items
  | .obj fields => noUndefinedObj fields
  | _ => true

/-- `noUndefined` over array elements. -/
def noUndefinedList : List NativeValue → Bool
  | [] => true
  | x :: xs => noUndefined x && noUndefinedList xs

/-- `noUndefined` over object entries. -/
def noUndefinedObj : List (String × NativeValue) → Bool
  | [] => true
  | (_, v) :: kvs => noUndefined v && noUndefinedObj kvs

end

/-- `DataFilterType` (data-helper.ts): the ten supported leaf operators. -/
inductive DataFilterType : Type where
  | isEqualTo | isNotEqualTo | isLessThan | isLessThanOrEqualTo
  | isGreaterThan | isGreaterThanOrEqualTo | arrayContains
  | arrayContainsAny | whereIn | whereNotIn
deriving DecidableEq, Repr

/-- `DataFilterWrapperType` (data-helper.ts): the two group combinators. -/
inductive DataFilterWrapperType : Type where
  | or | and
deriving DecidableEq, Repr

/-- The caller-built filter tree `DataFilterWrapper | DataFilter`
(data-helper.ts): a leaf `DataFilter { fieldName, value, filterType }` or a
group `DataFilterWrapper { filterWrapperType, filters }`. -/
inductive DataFilterNode : Type where
  | filter (fieldName : String) (value : NativeValue) (filterType : DataFilterType)
  | wrapper (filterWrapperType : DataFilterWrapperType) (filters : List DataFilterNode)
deriving Repr

/-- `DataSort` (data-helper.ts). -/
structure DataSort : Type where
  field : String
  ascending : Bool
deriving Repr

/-- Firestore wire filter (types.ts `Filter`): a field filter or a
composite filter; operators are kept as their wire strings. -/
inductive Filter : Type where
  | fieldFilter (fieldPath : String) (op : String) (value : Value)
  | compositeFilter (op : String) (filters : List Filter)
deriving Repr

/-- One `orderBy` entry of a structured query. -/
structure OrderSpec : Type where
  fieldPath : String
  direction : String
deriving Repr

/-- `StructuredQuery` (types.ts), restricted to the keys the helper sets;
`from`/`where` are keywords in Lean, hence the underscores. -/
structure StructuredQuery : Type where
  from_ : List String
  where_ : Option Filter := none
  orderBy : Option (List OrderSpec) := none
  limit : Option Int := none
deriving Repr

/-- `DOCUMENT_ID_FIELD` (data-helper.ts). -/
def DOCUMENT_ID_FIELD : String := "__name__"

/-- `MAX_IN_FILTER_VALUES` (data-helper.ts). -/
def MAX_IN_FILTER_VALUES : Nat := 10

/-- `FILTER_TYPE_TO_OPERATOR` (data-helper.ts). -/
def FILTER_TYPE_TO_OPERATOR : DataFilterType → String
  | .isEqualTo => "EQUAL"
  | .isNotEqualTo => "NOT_EQUAL"
  | .isLessThan => "LESS_THAN"
  | .isLessThanOrEqualTo => "LESS_THAN_OR_EQUAL"
  | .isGreaterThan => "GREATER_THAN"
  | .isGreaterThanOrEqualTo => "GREATER_THAN_OR_EQUAL"
  | .arrayContains => "ARRAY_CONTAINS"
  | .arrayContainsAny => "ARRAY_CONTAINS_ANY"
  | .whereIn => "IN"
  | .whereNotIn => "NOT_IN"

/-- `DBProvider.getDB` (db-provider.ts): the provider's state is the
`Option DB` it holds; uninitialized state throws the configuration error. -/
def DBProvider.getDB : Option DB → Except JsError DB
  | none => .error "DBProvider has not been initialized. Call DBProvider.getInstance().initialize() first."
  | some db => .ok db

/-- The state of a constructed `FireworkersDataHelper` (data-helper.ts):
the optional explicitly-bound `db` and the validated path fields. -/
structure FireworkersDataHelper : Type where
  db : Option DB
  collectionSegments : List String
  parentDocumentSegments : List String
  collectionId : String
deriving Repr

/-- The constructor's `collectionPath` argument: `string | string[]`. -/
inductive CollectionPath : Type where
  | str (s : String)
  | segs (segments : List String)

namespace FireworkersDataHelper

/-- The constructor's path normalization (data-helper.ts): split a string
path on `/` (or take the array as-is) and filter out empty segments. -/
def collectionSegmentsOf (collectionPath : CollectionPath) : List String :=
  let normalizedPath := match collectionPath with
    | .str s => (s.data.splitOn '/').map (fun cs => String.mk cs)
    | .segs segments => segments
  normalizedPath.filter (fun segment => segment.length != 0)

/-- The `FireworkersDataHelper` constructor (data-helper.ts): splits a
string path on `/`, filters empty segments, rejects empty and even-length
segment lists, and binds the last segment as the collection id. -/
def make (collectionPath : CollectionPath) (db : Option DB) :
    Except JsError FireworkersDataHelper :=
  let collectionSegments := collectionSegmentsOf collectionPath
  if collectionSegments.length = 0 then
    .error "Collection path must include at least one segment."
  else if collectionSegments.length % 2 = 0 then
    .error "Collection path must end in a collection identifier."
  else
    .ok { db := db
          collectionSegments := collectionSegments
          parentDocumentSegments := collectionSegments.dropLast
          collectionId := collectionSegments.getLastD "" }

/-- `FireworkersDataHelper.getDB` (data-helper.ts): the explicit handle if
one was provided, otherwise the central provider's. -/
def getDB (h : FireworkersDataHelper) (provider : Option DB) : Except JsError DB :=
  match h.db with
  | some db => .ok db
  | none => DBProvider.getDB provider

/-- `FireworkersDataHelper.getDocumentPath` (data-helper.ts). -/
def getDocumentPath (h : FireworkersDataHelper) (docId : String) :
    Except JsError (List String) :=
  if docId = "" ∨ '/' ∈ docId.data then
    .error "Document ids cannot be empty or contain slashes."
  else
    .ok (h.collectionSegments ++ [docId])

/-- `FireworkersDataHelper.buildDocumentReferencePath` (data-helper.ts). -/
def buildDocumentReferencePath (h : FireworkersDataHelper) (provider : Option DB)
    (docIdOrPath : String) : Except JsError String := do
  let relativePath :=
    if '/' ∈ docIdOrPath.data then
      String.mk (docIdOrPath.data.dropWhile (fun c => c == '/'))
    else String.intercalate "/" (h.collectionSegments ++ [docIdOrPath])
  let db ← h.getDB provider
  pure ("projects/" ++ db.project_id ++ "/databases/(default)/documents/" ++ relativePath)

mutual

/-- `FireworkersDataHelper.buildDocumentNameValue` (data-helper.ts):
arrays recurse element-wise into an `arrayValue`; a non-empty string is
resolved to a `referenceValue`; anything else throws. -/
def buildDocumentNameValue (h : FireworkersDataHelper) (provider : Option DB) :
    NativeValue → Except JsError Value
  | .arr items => do
      let values ← buildDocumentNameValueList h provider items
      pure (.arrayValue values)
  | .str s =>
      if s.length = 0 then
        .error "Document id filters require a non-empty string value."
      else do
        let referencePath ← h.buildDocumentReferencePath provider s
        pure (.referenceValue referencePath)
  | _ => .error "Document id filters require a non-empty string value."

/-- Element-wise recursion of `buildDocumentNameValue` over an array
operand (the source's `value.map((entry) => ...)`). -/
def buildDocumentNameValueList (h : FireworkersDataHelper) (provider : Option DB) :
    List NativeValue → Except JsError (List Value)
  | [] => pure []
  | x :: xs => do
      let v ← buildDocumentNameValue h provider x
      let vs ← buildDocumentNameValueList h provider xs
      pure (v :: vs)

end

/-- `FireworkersDataHelper.buildFieldValue` (data-helper.ts): the reserved
document-identity pseudo-field goes through reference resolution, every
other field through sanitization followed by the value codec. -/
def buildFieldValue (h : FireworkersDataHelper) (provider : Option DB)
    (fieldName : String) (value : NativeValue) : Except JsError Value :=
  if fieldName = DOCUMENT_ID_FIELD then
    buildDocumentNameValue h provider value
  else
    pure (convert_field_to_value (replaceUndefinedWithNull value))

/-- `FireworkersDataHelper.combineFilters` (data-helper.ts). -/
def combineFilters (type : DataFilterWrapperType) (filters : List Filter) : Filter :=
  .compositeFilter (if type = .and then "AND" else "OR") filters

mutual

/-- `FireworkersDataHelper.buildFilters` (data-helper.ts): compile each
child, drop the ineffective (`undefined`) results, then return nothing,
the single effective child, or a composite of all of them. -/
def buildFilters (h : FireworkersDataHelper) (provider : Option DB)
    (filters : List DataFilterNode) (wrapperType : DataFilterWrapperType) :
    Except JsError (Option Filter) := do
  let mapped ← buildFilterList h provider filters
  let builtFilters := mapped.filterMap id
  if builtFilters.length = 0 then pure none
  else if builtFilters.length = 1 then pure builtFilters.head?
  else pure (some (combineFilters wrapperType builtFilters))
termination_by (sizeOf filters, 1)

/-- `FireworkersDataHelper.buildFilter` (data-helper.ts): a wrapper
recurses into `buildFilters`; a leaf becomes a `fieldFilter` through the
operator table and `buildFieldValue`. -/
def buildFilter (h : FireworkersDataHelper) (provider : Option DB) :
    DataFilterNode → Except JsError (Option Filter)
  | .wrapper filterWrapperType filters => buildFilters h provider filters filterWrapperType
  | .filter fieldName value filterType => do
      let v ← buildFieldValue h provider fieldName value
      pure (some (.fieldFilter fieldName (FILTER_TYPE_TO_OPERATOR filterType) v))
termination_by f => (sizeOf f, 0)

/-- Element-wise compilation of a list of filter nodes (the source's
`filters.map((filter) => this.buildFilter(filter))`). -/
def buildFilterList (h : FireworkersDataHelper) (provider : Option DB) :
    List DataFilterNode → Except JsError (List (Option Filter))
  | [] => pure []
  | f :: rest => do
      let r ← buildFilter h provider f
      let rs ← buildFilterList h provider rest
      pure (r :: rs)
termination_by l => (sizeOf l, 0)

end

end FireworkersDataHelper

/-- The observable `set` invocation issued by `addData`. -/
structure SetCall : Type where
  db : DB
  documentPath : List String
  data : NativeValue
  merge : Bool
deriving Repr

/-- The observable `update` invocation issued by `updateField`; `db` is an
`Option` because the source passes `this.db!`, which is `null` when no
handle was supplied at construction. -/
structure UpdateCall : Type where
  db : Option DB
  documentPath : List String
  updateFields : NativeValue
deriving Repr

/-- The observable `remove` invocation issued by `deleteDocument`; `db` as
in `UpdateCall` (the source passes `this.db!`). -/
structure RemoveCall : Type where
  db : Option DB
  documentPath : List String
deriving Repr

/-- The observable `query` invocation: the DB handle, the compiled
structured query and the parent document segments spread after it. -/
structure QueryCall : Type where
  db : DB
  structuredQuery : StructuredQuery
  parentDocumentSegments : List String
deriving Repr

namespace FireworkersDataHelper

/-- `FireworkersDataHelper.addData` (data-helper.ts): sanitize, validate
the document path, then issue `set` (with the merge option flag). -/
def addData (h : FireworkersDataHelper) (provider : Option DB)
    (data : NativeValue) (docId : String) (merge : Bool := false) :
    Except JsError SetCall := do
  let sanitized := replaceUndefinedWithNull data
  let documentPath ← h.getDocumentPath docId
  let db ← h.getDB provider
  pure { db := db, documentPath := documentPath, data := sanitized, merge := merge }

/-- The `if (params?.limit) structuredQuery.limit = params.limit` step of
`getData`: a JS-falsy (absent or zero) limit is not copied. -/
def limitParam : Option Int → Option Int
  | some l => if l ≠ 0 then some l else none
  | none => none

/-- The `if (params?.sortBy) structuredQuery.orderBy = [...]` step of
`getData`: one order entry whose direction follows the ascending flag. -/
def orderByParam : Option DataSort → Option (List OrderSpec)
  | some s => some [⟨s.field, if s.ascending then "ASCENDING" else "DESCENDING"⟩]
  | none => none

/-- `FireworkersDataHelper.getData` (data-helper.ts): compile the filter
tree, limit and sort into a `StructuredQuery` and issue `query`. -/
def getData (h : FireworkersDataHelper) (provider : Option DB)
    (filters : Option (List DataFilterNode)) (limit : Option Int)
    (sortBy : Option DataSort) : Except JsError QueryCall := do
  let whereFilter ← match filters with
    | some fs =>
        if fs.length ≠ 0 then buildFilters h provider fs .and else pure none
    | none => pure none
  let db ← h.getDB provider
  pure { db := db
         structuredQuery :=
           { from_ := [h.collectionId]
             where_ := whereFilter
             limit := limitParam limit
             orderBy := orderByParam sortBy }
         parentDocumentSegments := h.parentDocumentSegments }

/-- `FireworkersDataHelper.getSingleDocument` (data-helper.ts): an `EQUAL`
filter on the document-identity pseudo-field with `limit: 1`. -/
def getSingleDocument (h : FireworkersDataHelper) (provider : Option DB)
    (docId : String) : Except JsError QueryCall := do
  let v ← buildDocumentNameValue h provider (.str docId)
  let db ← h.getDB provider
  pure { db := db
         structuredQuery :=
           { from_ := [h.collectionId]
             where_ := some (.fieldFilter DOCUMENT_ID_FIELD "EQUAL" v)
             limit := some 1 }
         parentDocumentSegments := h.parentDocumentSegments }

/-- `FireworkersDataHelper.updateField` (data-helper.ts): sanitize,
validate the path, then issue `update` with the raw `this.db!` handle —
note the source does not consult the provider here. -/
def updateField (h : FireworkersDataHelper)
    (docId : String) (updateFields : NativeValue) : Except JsError UpdateCall := do
  let sanitized := replaceUndefinedWithNull updateFields
  let documentPath ← h.getDocumentPath docId
  pure { db := h.db, documentPath := documentPath, updateFields := sanitized }

/-- `FireworkersDataHelper.deleteDocument` (data-helper.ts): validate the
path, then issue `remove` with the raw `this.db!` handle. -/
def deleteDocument (h : FireworkersDataHelper) (docId : String) :
    Except JsError RemoveCall := do
  let documentPath ← h.getDocumentPath docId
  pure { db := h.db, documentPath := documentPath }

/-- `FireworkersDataHelper.getDocsByIds` (data-helper.ts): empty input
issues no query (`none`); more than `MAX_IN_FILTER_VALUES` ids throws;
otherwise an `IN` filter on the document-identity pseudo-field is issued. -/
def getDocsByIds (h : FireworkersDataHelper) (provider : Option DB)
    (ids : List String) : Except JsError (Option QueryCall) :=
  if ids.length = 0 then pure none
  else if ids.length > MAX_IN_FILTER_VALUES then
    .error "Firestore supports a maximum of 10 ids per request."
  else do
    let v ← buildDocumentNameValue h provider (.arr (ids.map .str))
    let db ← h.getDB provider
    pure (some { db := db
                 structuredQuery :=
                   { from_ := [h.collectionId]
                     where_ := some (.fieldFilter DOCUMENT_ID_FIELD "IN" v) }
                 parentDocumentSegments := h.parentDocumentSegments })

end FireworkersDataHelper

/-- The observable REST request constructed by `update` (update.ts):
the endpoint's path segments, its query string parameters in the order the
source adds them, and the encoded document payload. -/
structure UpdateRequest : Type where
  paths : List String
  searchParams : List (String × String)
  payloadFields : List (String × Value)
deriving Repr

/-- `update` (update.ts): sets `currentDocument.exists=true`, then appends
one `updateMask.fieldPaths` entry per key of `fields` (the `for...in`
loop), and PATCHes the encoded payload. The payload encoding
(`create_document_from_fields`, fields.ts) is modelled from the spec as the
field-wise ValueCodec encode. -/
def update (_db : DB) (paths : List String)
    (fields : List (String × NativeValue)) : UpdateRequest :=
  { paths := paths
    searchParams :=
      ("currentDocument.exists", "true")
        :: fields.map (fun kv => ("updateMask.fieldPaths", kv.1))
    payloadFields := convertObj fields }

/-- A concrete session handle, as in data-helper.test.ts. -/
def demoDB : DB := { project_id := "demo-project", jwt := "fake-jwt" }

/-- The helper produced by constructing on the single-segment path
`todos` with `demoDB` bound explicitly. -/
def demoHelper : FireworkersDataHelper :=
  { db := some demoDB
    collectionSegments := ["todos"]
    parentDocumentSegments := []
    collectionId := "todos" }

/-- The helper produced by constructing on the path `todos` with no
explicit session handle (the `db` argument omitted). -/
def unboundHelper : FireworkersDataHelper :=
  { db := none
    collectionSegments := ["todos"]
    parentDocumentSegments := []
    collectionId := "todos" }

open FireworkersDataHelper

theorem intercalate_go_append (sep x : String) :
    ∀ (l : List String) (acc : String),
      String.intercalate.go acc sep (l ++ [x]) =
        String.intercalate.go acc sep l ++ sep ++ x := by
  intro l
  induction l with
  | nil => intro acc; simp [String.intercalate.go]
  | cons b bs ih => intro acc; simp [String.intercalate.go, ih]

theorem intercalate_append_singleton (sep x : String) (l : List String)
    (hl : l ≠ []) :
    String.intercalate sep (l ++ [x]) =
      String.intercalate sep l ++ sep ++ x := by
  cases l with
  | nil => exact absurd rfl hl
  | cons a as => simp [String.intercalate, intercalate_go_append]

theorem sanitize_eq_spec (v : NativeValue) :
    replaceUndefinedWithNull v = sanitizeSpec v := by
  induction v using NativeValue.inductionOn with
  | hundef => simp [replaceUndefinedWithNull, sanitizeSpec]
  | hnull => simp [replaceUndefinedWithNull, sanitizeSpec]
  | hbool b => simp [replaceUndefinedWithNull, sanitizeSpec]
  | hnum n => simp [replaceUndefinedWithNull, sanitizeSpec]
  | hstr s => simp [replaceUndefinedWithNull, sanitizeSpec]
  | harr items ih =>
    simp only [replaceUndefinedWithNull, sanitizeSpec, NativeValue.arr.injEq]
    induction items with
    | nil => simp [replaceUndefinedWithNullList, sanitizeSpecList]
    | cons x xs ihl =>
      simp only [replaceUndefinedWithNullList, sanitizeSpecList, List.cons.injEq]
      exact ⟨ih x (by simp), ihl (fun y hy => ih y (by simp [hy]))⟩
  | hobj fields ih =>
    simp only [replaceUndefinedWithNull, sanitizeSpec, NativeValue.obj.injEq]
    induction fields with
    | nil => simp [replaceUndefinedWithNullObj, sanitizeSpecObj]
    | cons kv kvs ihl =>
      cases kv with
      | mk k v =>
        simp only [replaceUndefinedWithNullObj, sanitizeSpecObj, List.cons.injEq,
          Prod.mk.injEq, true_and]
        exact ⟨ih (k, v) (by simp),
          ihl (fun kv2 hkv2 => ih kv2 (by simp [hkv2]))⟩

theorem sanitize_noUndefined (v : NativeValue) :
    noUndefined (replaceUndefinedWithNull v) = true := by
  induction v using NativeValue.inductionOn with
  | hundef => simp [replaceUndefinedWithNull, noUndefined]
  | hnull => simp [replaceUndefinedWithNull, noUndefined]
  | hbool b => simp [replaceUndefinedWithNull, noUndefined]
  | hnum n => simp [replaceUndefinedWithNull, noUndefined]
  | hstr s => simp [replaceUndefinedWithNull, noUndefined]
  | harr items ih =>
    simp only [replaceUndefinedWithNull, noUndefined]
    induction items with
    | nil => simp [replaceUndefinedWithNullList, noUndefinedList]
    | cons x xs ihl =>
      simp only [replaceUndefinedWithNullList, noUndefinedList, Bool.and_eq_true]
      exact ⟨ih x (by simp), ihl (fun y hy => ih y (by simp [hy]))⟩
  | hobj fields ih =>
    simp only [replaceUndefinedWithNull, noUndefined]
    induction fields with
    | nil => simp [replaceUndefinedWithNullObj, noUndefinedObj]
    | cons kv kvs ihl =>
      cases kv with
      | mk k v =>
        simp only [replaceUndefinedWithNullObj, noUndefinedObj, Bool.and_eq_true]
        exact ⟨ih (k, v) (by simp), ihl (fun kv2 hkv2 => ih kv2 (by simp [hkv2]))⟩

/-- C6: the undefined-to-null sanitization applied by `addData`,
`updateField` and to filter operands equals the pure structural transform
that replaces every `undefined` (at any depth) by `null` and leaves every
other value — including array order and object key structure — unchanged;
in particular no `undefined` survives it. -/
theorem claim_C6_sanitization (v : NativeValue) :
    replaceUndefinedWithNull v = sanitizeSpec v ∧
      noUndefined (replaceUndefinedWithNull v) = true :=
  ⟨sanitize_eq_spec v, sanitize_noUndefined v⟩

/-- C7: helper construction filters out empty path segments, rejects a
zero-segment result and an even-length result with the respective path
validation errors, and accepts an odd-length result, binding the last
segment as the collection id and the rest as the parent document path. -/
theorem claim_C7_constructor_validation (collectionPath : CollectionPath)
    (db : Option DB) :
    ((collectionSegmentsOf collectionPath).length = 0 →
      FireworkersDataHelper.make collectionPath db =
        .error "Collection path must include at least one segment.") ∧
    ((collectionSegmentsOf collectionPath).length ≠ 0 →
      (collectionSegmentsOf collectionPath).length % 2 = 0 →
      FireworkersDataHelper.make collectionPath db =
        .error "Collection path must end in a collection identifier.") ∧
    ((collectionSegmentsOf collectionPath).length % 2 = 1 →
      FireworkersDataHelper.make collectionPath db =
        .ok { db := db
              collectionSegments := collectionSegmentsOf collectionPath
              parentDocumentSegments := (collectionSegmentsOf collectionPath).dropLast
              collectionId := (collectionSegmentsOf collectionPath).getLastD "" }) := by
  refine ⟨?_, ?_, ?_⟩
  · intro h0
    simp [FireworkersDataHelper.make, h0]
  · intro hne heven
    simp [FireworkersDataHelper.make, hne, heven]
  · intro hodd
    have hne : (collectionSegmentsOf collectionPath).length ≠ 0 := by omega
    have heven : ¬ (collectionSegmentsOf collectionPath).length % 2 = 0 := by omega
    simp [FireworkersDataHelper.make, hne, heven]

/-- Witness for C7: the three-segment path `users`, `u1`, `todos` is
accepted with collection id `todos` and parent path `users`, `u1`; the
two-segment path `todos`, `abc` and the all-empty segment list are
rejected. -/
theorem claim_C7_witness :
    FireworkersDataHelper.make (.segs ["users", "u1", "todos"]) none =
      .ok { db := none
            collectionSegments := ["users", "u1", "todos"]
            parentDocumentSegments := ["users", "u1"]
            collectionId := "todos" } ∧
    FireworkersDataHelper.make (.segs ["todos", "abc"]) none =
      .error "Collection path must end in a collection identifier." ∧
    FireworkersDataHelper.make (.segs ["", ""]) none =
      .error "Collection path must include at least one segment." := by
  refine ⟨?_, ?_, ?_⟩
  · have h := (claim_C7_constructor_validation
      (.segs ["users", "u1", "todos"]) none).2.2 (by decide)
    simpa [collectionSegmentsOf] using h
  · exact (claim_C7_constructor_validation (.segs ["todos", "abc"]) none).2.1
      (by decide) (by decide)
  · exact (claim_C7_constructor_validation (.segs ["", ""]) none).1 (by decide)

/-- C2: for a non-empty operand of a document-identity filter, a string
with no `/` resolves to the canonical prefix followed by the collection
segments joined by `/`, a `/`, and the id; a string containing `/` is used
verbatim after the prefix with leading slashes stripped. -/
theorem claim_C2_document_reference_path (h : FireworkersDataHelper)
    (provider : Option DB) (db : DB) (s : String)
    (hdb : h.getDB provider = .ok db) (_hne : s ≠ "")
    (hsegs : h.collectionSegments ≠ []) :
    ('/' ∉ s.data →
      h.buildDocumentReferencePath provider s =
        .ok ("projects/" ++ db.project_id ++ "/databases/(default)/documents/" ++
          (String.intercalate "/" h.collectionSegments ++ "/" ++ s))) ∧
    ('/' ∈ s.data →
      h.buildDocumentReferencePath provider s =
        .ok ("projects/" ++ db.project_id ++ "/databases/(default)/documents/" ++
          String.mk (s.data.dropWhile (fun c => c == '/')))) := by
  constructor
  · intro hc
    simp [FireworkersDataHelper.buildDocumentReferencePath, hc, hdb,
      intercalate_append_singleton "/" s h.collectionSegments hsegs]
  · intro hc
    simp [FireworkersDataHelper.buildDocumentReferencePath, hc, hdb]

/-- Witness for C2: on the helper bound to `todos` of `demo-project`, the
bare id `doc-1` resolves under the collection path, while `///x/y` passes
through with its leading slashes stripped. -/
theorem claim_C2_witness :
    demoHelper.buildDocumentReferencePath none "doc-1" =
      .ok "projects/demo-project/databases/(default)/documents/todos/doc-1" ∧
    demoHelper.buildDocumentReferencePath none "///x/y" =
      .ok "projects/demo-project/databases/(default)/documents/x/y" := by
  constructor
  · have h1 := (claim_C2_document_reference_path demoHelper none demoDB "doc-1"
      rfl (by decide) (by decide)).1 (by decide)
    exact h1.trans (congrArg Except.ok (by decide))
  · have h2 := (claim_C2_document_reference_path demoHelper none demoDB "///x/y"
      rfl (by decide) (by decide)).2 (by decide)
    exact h2.trans (congrArg Except.ok (by decide))

/-- C8: an empty or slash-containing document id makes `addData`,
`updateField` and `deleteDocument` fail with the path validation error
before any operation is issued; otherwise each operation targets the
collection segments followed by the id. -/
theorem claim_C8_document_id_validation (h : FireworkersDataHelper)
    (provider : Option DB) (data fields : NativeValue) (docId : String)
    (merge : Bool) :
    ((docId = "" ∨ '/' ∈ docId.data) →
      h.addData provider data docId merge =
        .error "Document ids cannot be empty or contain slashes." ∧
      h.updateField docId fields =
        .error "Document ids cannot be empty or contain slashes." ∧
      h.deleteDocument docId =
        .error "Document ids cannot be empty or contain slashes.") ∧
    (¬ (docId = "" ∨ '/' ∈ docId.data) →
      (∀ c, h.addData provider data docId merge = .ok c →
        c.documentPath = h.collectionSegments ++ [docId]) ∧
      h.updateField docId fields =
        .ok { db := h.db
              documentPath := h.collectionSegments ++ [docId]
              updateFields := replaceUndefinedWithNull fields } ∧
      h.deleteDocument docId =
        .ok { db := h.db, documentPath := h.collectionSegments ++ [docId] }) := by
  constructor
  · intro hbad
    refine ⟨?_, ?_, ?_⟩ <;>
      simp [FireworkersDataHelper.addData, FireworkersDataHelper.updateField,
        FireworkersDataHelper.deleteDocument, FireworkersDataHelper.getDocumentPath,
        hbad, Bind.bind, Except.bind, Functor.map, Except.map]
  · intro hgood
    refine ⟨?_, ?_, ?_⟩
    · intro c hc
      cases hdb : h.getDB provider with
      | error e =>
        simp [FireworkersDataHelper.addData, FireworkersDataHelper.getDocumentPath,
          hgood, hdb, Bind.bind, Except.bind, Functor.map, Except.map] at hc
      | ok db =>
        simp [FireworkersDataHelper.addData, FireworkersDataHelper.getDocumentPath,
          hgood, hdb, Bind.bind, Except.bind, Functor.map, Except.map,
          Pure.pure, Except.pure] at hc
        subst hc
        rfl
    · simp [FireworkersDataHelper.updateField,
        FireworkersDataHelper.getDocumentPath, hgood]
    · simp [FireworkersDataHelper.deleteDocument,
        FireworkersDataHelper.getDocumentPath, hgood]

/-- Witness for C8: on the helper bound to `todos`, the id `a/b` is
rejected by `updateField` while `doc-1` is accepted by `updateField` and
`deleteDocument`, both targeting the path `todos`, `doc-1`. -/
theorem claim_C8_witness :
    demoHelper.updateField "a/b" (.obj []) =
      .error "Document ids cannot be empty or contain slashes." ∧
    demoHelper.updateField "doc-1" (.obj []) =
      .ok { db := some demoDB
            documentPath := ["todos", "doc-1"]
            updateFields := .obj [] } ∧
    demoHelper.deleteDocument "doc-1" =
      .ok { db := some demoDB, documentPath := ["todos", "doc-1"] } := by
  refine ⟨?_, ?_, ?_⟩
  · exact ((claim_C8_document_id_validation demoHelper none .null (.obj [])
      "a/b" false).1 (by decide)).2.1
  · have h1 := ((claim_C8_document_id_validation demoHelper none .null (.obj [])
      "doc-1" false).2 (by decide)).2.1
    simpa [replaceUndefinedWithNull, replaceUndefinedWithNullObj] using h1
  · exact ((claim_C8_document_id_validation demoHelper none .null (.obj [])
      "doc-1" false).2 (by decide)).2.2

/-- The canonical reference path a document-identity operand `s` resolves
to once the session handle `db` is known: the absolute prefix followed by
either the slash-stripped qualified path or the collection-scoped id. -/
def referencePathFor (h : FireworkersDataHelper) (db : DB) (s : String) : String :=
  "projects/" ++ db.project_id ++ "/databases/(default)/documents/" ++
    (if '/' ∈ s.data then String.mk (s.data.dropWhile (fun c => c == '/'))
     else String.intercalate "/" (h.collectionSegments ++ [s]))

theorem buildDocumentReferencePath_ok (h : FireworkersDataHelper)
    (provider : Option DB) (db : DB) (s : String)
    (hdb : h.getDB provider = .ok db) :
    h.buildDocumentReferencePath provider s = .ok (referencePathFor h db s) := by
  simp [FireworkersDataHelper.buildDocumentReferencePath, referencePathFor, hdb,
    Bind.bind, Except.bind, Pure.pure, Except.pure]

theorem length_ne_zero_of_ne_empty (s : String) (hs : s ≠ "") :
    ¬ s.length = 0 := by
  intro h0
  apply hs
  cases s with
  | mk data =>
    simp [String.length] at h0
    subst h0
    rfl

theorem buildDocumentNameValue_str_ok (h : FireworkersDataHelper)
    (provider : Option DB) (db : DB) (s : String)
    (hdb : h.getDB provider = .ok db) (hs : s ≠ "") :
    buildDocumentNameValue h provider (.str s) =
      .ok (.referenceValue (referencePathFor h db s)) := by
  have hlen : ¬ s.length = 0 := length_ne_zero_of_ne_empty s hs
  simp [buildDocumentNameValue, hlen,
    buildDocumentReferencePath_ok h provider db s hdb,
    Bind.bind, Except.bind, Pure.pure, Except.pure]

theorem buildDocumentNameValueList_ok (h : FireworkersDataHelper)
    (provider : Option DB) (db : DB) (hdb : h.getDB provider = .ok db) :
    ∀ ss : List String, (∀ s ∈ ss, s ≠ "") →
      buildDocumentNameValueList h provider (ss.map .str) =
        .ok (ss.map (fun s => Value.referenceValue (referencePathFor h db s))) := by
  intro ss
  induction ss with
  | nil =>
    intro _
    simp [buildDocumentNameValueList, Pure.pure, Except.pure]
  | cons s rest ih =>
    intro hall
    have hs : s ≠ "" := hall s (by simp)
    have hrest := ih (fun y hy => hall y (by simp [hy]))
    simp [buildDocumentNameValueList,
      buildDocumentNameValue_str_ok h provider db s hdb hs, hrest,
      Bind.bind, Except.bind, Pure.pure, Except.pure]

/-- C1: group compilation — given the recursively compiled children, a
group all of whose children compile to nothing contributes no filter, a
group with exactly one effective child is elided to that child, and a
group with two or more effective children becomes a composite filter
tagged `AND`/`OR` per its combinator with the children in order. -/
theorem claim_C1_group_compilation (h : FireworkersDataHelper)
    (provider : Option DB) (children : List DataFilterNode)
    (wrapperType : DataFilterWrapperType) (mapped : List (Option Filter))
    (hm : buildFilterList h provider children = .ok mapped) :
    buildFilters h provider children wrapperType =
      .ok (match mapped.filterMap id with
        | [] => none
        | [f] => some f
        | effective => some (.compositeFilter
            (if wrapperType = .and then "AND" else "OR") effective)) := by
  cases he : mapped.filterMap id with
  | nil =>
    simp [buildFilters, hm, he, Bind.bind, Except.bind, Pure.pure, Except.pure]
  | cons a tail =>
    cases tail with
    | nil =>
      simp [buildFilters, hm, he, Bind.bind, Except.bind, Pure.pure, Except.pure]
    | cons b rest =>
      simp [buildFilters, hm, he, combineFilters,
        Bind.bind, Except.bind, Pure.pure, Except.pure]

/-- Witness for C1: two leaves under an `or` combinator compile to a
two-child `OR` composite; a group whose only child is an empty wrapper
compiles to nothing; an empty wrapper next to one leaf is elided so the
leaf's bare field filter survives without a composite. -/
theorem claim_C1_witness :
    buildFilters demoHelper none
        [.filter "status" (.str "open") .isEqualTo,
         .filter "priority" (.str "high") .isEqualTo] .or =
      .ok (some (.compositeFilter "OR"
        [.fieldFilter "status" "EQUAL" (.stringValue "open"),
         .fieldFilter "priority" "EQUAL" (.stringValue "high")])) ∧
    buildFilters demoHelper none [.wrapper .and []] .and = .ok none ∧
    buildFilters demoHelper none
        [.wrapper .or [], .filter "status" (.str "open") .isEqualTo] .and =
      .ok (some (.fieldFilter "status" "EQUAL" (.stringValue "open"))) := by
  refine ⟨?_, ?_, ?_⟩
  · have hm : buildFilterList demoHelper none
        [.filter "status" (.str "open") .isEqualTo,
         .filter "priority" (.str "high") .isEqualTo] =
        .ok [some (.fieldFilter "status" "EQUAL" (.stringValue "open")),
             some (.fieldFilter "priority" "EQUAL" (.stringValue "high"))] := by
      simp [buildFilterList, buildFilter, buildFieldValue, DOCUMENT_ID_FIELD,
        FILTER_TYPE_TO_OPERATOR, convert_field_to_value, replaceUndefinedWithNull,
        Bind.bind, Except.bind, Pure.pure, Except.pure]
    exact claim_C1_group_compilation demoHelper none _ .or _ hm
  · have hm : buildFilterList demoHelper none [.wrapper .and []] = .ok [none] := by
      simp [buildFilterList, buildFilter, buildFilters,
        Bind.bind, Except.bind, Pure.pure, Except.pure]
    exact claim_C1_group_compilation demoHelper none _ .and _ hm
  · have hm : buildFilterList demoHelper none
        [.wrapper .or [], .filter "status" (.str "open") .isEqualTo] =
        .ok [none, some (.fieldFilter "status" "EQUAL" (.stringValue "open"))] := by
      simp [buildFilterList, buildFilter, buildFilters, buildFieldValue,
        DOCUMENT_ID_FIELD, FILTER_TYPE_TO_OPERATOR, convert_field_to_value,
        replaceUndefinedWithNull, Bind.bind, Except.bind, Pure.pure, Except.pure]
    exact claim_C1_group_compilation demoHelper none _ .and _ hm

/-- C4: a leaf filter on the reserved pseudo-field resolves its operand to
reference-variant wire values — a single non-empty string to one
`referenceValue`, an array of non-empty strings to an `arrayValue` of
`referenceValue`s — while every other field name sends the operand through
undefined-to-null sanitization followed by the value codec. -/
theorem claim_C4_field_value_encoding (h : FireworkersDataHelper)
    (provider : Option DB) (db : DB) (name : String) (v : NativeValue)
    (hdb : h.getDB provider = .ok db) :
    (name ≠ DOCUMENT_ID_FIELD →
      buildFieldValue h provider name v =
        .ok (convert_field_to_value (replaceUndefinedWithNull v))) ∧
    (∀ s, v = .str s → s ≠ "" →
      buildFieldValue h provider DOCUMENT_ID_FIELD v =
        .ok (.referenceValue (referencePathFor h db s))) ∧
    (∀ ss : List String, v = .arr (ss.map .str) → (∀ s ∈ ss, s ≠ "") →
      buildFieldValue h provider DOCUMENT_ID_FIELD v =
        .ok (.arrayValue
          (ss.map (fun s => Value.referenceValue (referencePathFor h db s))))) := by
  refine ⟨?_, ?_, ?_⟩
  · intro hname
    simp [buildFieldValue, hname, Pure.pure, Except.pure]
  · intro s hv hs
    subst hv
    simp [buildFieldValue, DOCUMENT_ID_FIELD,
      buildDocumentNameValue_str_ok h provider db s hdb hs]
  · intro ss hv hall
    subst hv
    simp [buildFieldValue, DOCUMENT_ID_FIELD, buildDocumentNameValue,
      buildDocumentNameValueList_ok h provider db hdb ss hall,
      Bind.bind, Except.bind, Pure.pure, Except.pure]

/-- Witness for C4: on the helper bound to `todos` of `demo-project`, a
filter on `owner` passes its operand through the codec, while `__name__`
operands `doc-1` and the pair `a`, `b` become reference values. -/
theorem claim_C4_witness :
    buildFieldValue demoHelper none "owner" (.str "user1234") =
      .ok (.stringValue "user1234") ∧
    buildFieldValue demoHelper none "__name__" (.str "doc-1") =
      .ok (.referenceValue
        "projects/demo-project/databases/(default)/documents/todos/doc-1") ∧
    buildFieldValue demoHelper none "__name__" (.arr [.str "a", .str "b"]) =
      .ok (.arrayValue
        [.referenceValue "projects/demo-project/databases/(default)/documents/todos/a",
         .referenceValue "projects/demo-project/databases/(default)/documents/todos/b"]) := by
  refine ⟨?_, ?_, ?_⟩
  · have h1 := (claim_C4_field_value_encoding demoHelper none demoDB "owner"
      (.str "user1234") rfl).1 (by decide)
    simpa [convert_field_to_value, replaceUndefinedWithNull] using h1
  · have h2 := (claim_C4_field_value_encoding demoHelper none demoDB
      DOCUMENT_ID_FIELD (.str "doc-1") rfl).2.1 "doc-1" rfl (by decide)
    exact h2.trans (congrArg Except.ok (congrArg Value.referenceValue (by decide)))
  · have h3 := (claim_C4_field_value_encoding demoHelper none demoDB
      DOCUMENT_ID_FIELD (.arr [.str "a", .str "b"]) rfl).2.2 ["a", "b"] rfl
      (by decide)
    refine h3.trans (congrArg Except.ok ?_)
    have ha : referencePathFor demoHelper demoDB "a" =
        "projects/demo-project/databases/(default)/documents/todos/a" := by decide
    have hb : referencePathFor demoHelper demoDB "b" =
        "projects/demo-project/databases/(default)/documents/todos/b" := by decide
    simp [ha, hb]

/-- Counterexample to C3 as stated: a call with exactly 10 ids does not
always succeed — ten empty-string ids fail the non-empty operand check of
the document-identity conversion even on a fully configured helper. -/
theorem claim_C3_counterexample :
    demoHelper.getDocsByIds none (List.replicate 10 "") =
      .error "Document id filters require a non-empty string value." := by
  simp [FireworkersDataHelper.getDocsByIds, MAX_IN_FILTER_VALUES,
    List.replicate, buildDocumentNameValue, buildDocumentNameValueList,
    Bind.bind, Except.bind, Pure.pure, Except.pure]

/-- C3 (amended): more than 10 ids fail with the bounded-membership error
before any query is issued; exactly 10 ids succeed and issue the `IN`
query on the document-identity pseudo-field, provided each id is a
non-empty string and a session handle resolves. -/
theorem claim_C3_in_filter_bound (h : FireworkersDataHelper)
    (provider : Option DB) (db : DB) (ids : List String)
    (hdb : h.getDB provider = .ok db) :
    (ids.length > MAX_IN_FILTER_VALUES →
      h.getDocsByIds provider ids =
        .error "Firestore supports a maximum of 10 ids per request.") ∧
    (ids.length = MAX_IN_FILTER_VALUES → (∀ s ∈ ids, s ≠ "") →
      h.getDocsByIds provider ids =
        .ok (some { db := db
                    structuredQuery :=
                      { from_ := [h.collectionId]
                        where_ := some (.fieldFilter DOCUMENT_ID_FIELD "IN"
                          (.arrayValue (ids.map (fun s =>
                            Value.referenceValue (referencePathFor h db s)))))
                        orderBy := none
                        limit := none }
                    parentDocumentSegments := h.parentDocumentSegments })) := by
  constructor
  · intro hgt
    have h0 : ¬ ids.length = 0 := by
      simp [MAX_IN_FILTER_VALUES] at hgt
      omega
    simp [FireworkersDataHelper.getDocsByIds, h0, hgt]
  · intro hlen hall
    have h0 : ¬ ids.length = 0 := by
      simp [MAX_IN_FILTER_VALUES] at hlen
      omega
    have hgt : ¬ ids.length > MAX_IN_FILTER_VALUES := by omega
    simp [FireworkersDataHelper.getDocsByIds, h0, hgt, buildDocumentNameValue,
      buildDocumentNameValueList_ok h provider db hdb ids hall, hdb,
      Bind.bind, Except.bind, Pure.pure, Except.pure]

/-- Witness for C3 (amended): eleven ids are rejected with the
bounded-membership error; ten non-empty ids issue the `IN` query on
`__name__` over the corresponding reference values. -/
theorem claim_C3_witness :
    demoHelper.getDocsByIds none
        ["a", "b", "c", "d", "e", "f", "g", "h", "i", "j", "k"] =
      .error "Firestore supports a maximum of 10 ids per request." ∧
    demoHelper.getDocsByIds none
        ["a", "b", "c", "d", "e", "f", "g", "h", "i", "j"] =
      .ok (some { db := demoDB
                  structuredQuery :=
                    { from_ := ["todos"]
                      where_ := some (.fieldFilter DOCUMENT_ID_FIELD "IN"
                        (.arrayValue
                          (["a", "b", "c", "d", "e", "f", "g", "h", "i", "j"].map
                            (fun s => Value.referenceValue
                              (referencePathFor demoHelper demoDB s)))))
                      orderBy := none
                      limit := none }
                  parentDocumentSegments := [] }) := by
  constructor
  · exact (claim_C3_in_filter_bound demoHelper none demoDB
      ["a", "b", "c", "d", "e", "f", "g", "h", "i", "j", "k"] rfl).1 (by decide)
  · exact (claim_C3_in_filter_bound demoHelper none demoDB
      ["a", "b", "c", "d", "e", "f", "g", "h", "i", "j"] rfl).2 (by decide)
      (by decide)

/-- Counterexample to C5 as stated: a negative limit is not omitted — the
source copies any JS-truthy (nonzero) limit through, so `-1` lands in the
compiled query verbatim. -/
theorem claim_C5_counterexample :
    demoHelper.getData none none (some (-1)) none =
      .ok { db := demoDB
            structuredQuery :=
              { from_ := ["todos"]
                where_ := none
                orderBy := none
                limit := some (-1) }
            parentDocumentSegments := [] } := by
  simp [FireworkersDataHelper.getData, FireworkersDataHelper.getDB, demoHelper,
    limitParam, orderByParam, Bind.bind, Except.bind, Pure.pure, Except.pure]

/-- C5 (amended): every successful `getData` call compiles `from` to the
single bound collection id; `where` is omitted when no filters are given
and otherwise carries the compiled tree (which may itself be nothing);
`orderBy` is a single entry following the ascending flag when `sortBy` is
given; and `limit` is copied exactly when nonzero and omitted when zero or
absent. -/
theorem claim_C5_structured_query (h : FireworkersDataHelper)
    (provider : Option DB) (filters : Option (List DataFilterNode))
    (limit : Option Int) (sortBy : Option DataSort) (c : QueryCall)
    (hok : h.getData provider filters limit sortBy = .ok c) :
    c.structuredQuery.from_ = [h.collectionId] ∧
    ((filters = none ∨ filters = some []) → c.structuredQuery.where_ = none) ∧
    (∀ l, filters = some l → l ≠ [] →
      buildFilters h provider l .and = .ok c.structuredQuery.where_) ∧
    ((limit = none ∨ limit = some 0) → c.structuredQuery.limit = none) ∧
    (∀ n : Int, limit = some n → n ≠ 0 → c.structuredQuery.limit = some n) ∧
    (sortBy = none → c.structuredQuery.orderBy = none) ∧
    (∀ srt, sortBy = some srt → c.structuredQuery.orderBy =
      some [{ fieldPath := srt.field
              direction := if srt.ascending then "ASCENDING" else "DESCENDING" }]) ∧
    c.parentDocumentSegments = h.parentDocumentSegments := by
  have main : c.structuredQuery.from_ = [h.collectionId] ∧
      (match filters with
        | some fs =>
            if fs.length ≠ 0 then buildFilters h provider fs .and else pure none
        | none => pure none) = .ok c.structuredQuery.where_ ∧
      c.structuredQuery.limit = limitParam limit ∧
      c.structuredQuery.orderBy = orderByParam sortBy ∧
      c.parentDocumentSegments = h.parentDocumentSegments := by
    cases filters with
    | none =>
      cases hdb : h.getDB provider with
      | error e =>
        simp [FireworkersDataHelper.getData, hdb,
          Bind.bind, Except.bind, Pure.pure, Except.pure] at hok
      | ok db =>
        simp [FireworkersDataHelper.getData, hdb,
          Bind.bind, Except.bind, Pure.pure, Except.pure] at hok
        subst hok
        simp [Pure.pure, Except.pure]
    | some l =>
      by_cases hl : l.length ≠ 0
      · cases hbf : buildFilters h provider l .and with
        | error e =>
          simp [FireworkersDataHelper.getData, hl, hbf,
            Bind.bind, Except.bind, Pure.pure, Except.pure] at hok
        | ok w =>
          cases hdb : h.getDB provider with
          | error e =>
            simp [FireworkersDataHelper.getData, hl, hbf, hdb,
              Bind.bind, Except.bind, Pure.pure, Except.pure] at hok
          | ok db =>
            simp [FireworkersDataHelper.getData, hl, hbf, hdb,
              Bind.bind, Except.bind, Pure.pure, Except.pure] at hok
            subst hok
            simp [hl, hbf]
      · cases hdb : h.getDB provider with
        | error e =>
          simp [FireworkersDataHelper.getData, hl, hdb,
            Bind.bind, Except.bind, Pure.pure, Except.pure] at hok
        | ok db =>
          simp [FireworkersDataHelper.getData, hl, hdb,
            Bind.bind, Except.bind, Pure.pure, Except.pure] at hok
          subst hok
          simp [hl, Pure.pure, Except.pure]
  obtain ⟨hfrom, hwhere, hlimit, horder, hparent⟩ := main
  refine ⟨hfrom, ?_, ?_, ?_, ?_, ?_, ?_, hparent⟩
  · rintro (rfl | rfl)
    · simpa [Pure.pure, Except.pure] using hwhere.symm
    · simpa [Pure.pure, Except.pure] using hwhere.symm
  · rintro l rfl hl
    have hl' : l.length ≠ 0 := by
      intro h0
      exact hl (List.length_eq_zero.mp h0)
    simpa [hl'] using hwhere
  · rintro (rfl | rfl) <;> simp [limitParam] at hlimit <;> exact hlimit
  · rintro n rfl hn
    simpa [limitParam, hn] using hlimit
  · rintro rfl
    simpa [orderByParam] using horder
  · rintro srt rfl
    simpa [orderByParam] using horder

/-- Witness for C5 (amended): a call with no filters, limit 5 and an
ascending sort on `title` compiles to limit 5, a single ascending order
entry, the bound collection, and no `where`. -/
theorem claim_C5_witness :
    (({ db := demoDB
        structuredQuery :=
          { from_ := ["todos"]
            where_ := none
            orderBy := some [{ fieldPath := "title", direction := "ASCENDING" }]
            limit := some 5 }
        parentDocumentSegments := [] } : QueryCall).structuredQuery.from_ =
      ["todos"]) ∧
    (({ db := demoDB
        structuredQuery :=
          { from_ := ["todos"]
            where_ := none
            orderBy := some [{ fieldPath := "title", direction := "ASCENDING" }]
            limit := some 5 }
        parentDocumentSegments := [] } : QueryCall).structuredQuery.limit =
      some 5) := by
  have hok : demoHelper.getData none none (some 5)
      (some { field := "title", ascending := true }) =
      .ok { db := demoDB
            structuredQuery :=
              { from_ := ["todos"]
                where_ := none
                orderBy := some [{ fieldPath := "title", direction := "ASCENDING" }]
                limit := some 5 }
            parentDocumentSegments := [] } := by
    simp [FireworkersDataHelper.getData, FireworkersDataHelper.getDB, demoHelper,
      limitParam, orderByParam, Bind.bind, Except.bind, Pure.pure, Except.pure]
  have h := claim_C5_structured_query demoHelper none none (some 5)
    (some { field := "title", ascending := true }) _ hok
  exact ⟨h.1, h.2.2.2.2.1 5 rfl (by decide)⟩

/-- C9 exhibit: on the helper constructed without an explicit handle while
the provider is uninitialized, `addData`, `getData`, `getSingleDocument`
and `getDocsByIds` surface the provider's configuration error, but
`updateField` and `deleteDocument` — which pass the raw `this.db!` instead
of consulting `getDB` — proceed and hand the absent handle to the
transport operation. -/
theorem claim_C9_uninitialized_provider :
    FireworkersDataHelper.make (.str "todos") none = .ok unboundHelper ∧
    DBProvider.getDB none =
      .error "DBProvider has not been initialized. Call DBProvider.getInstance().initialize() first." ∧
    unboundHelper.addData none (.obj [("title", .str "x")]) "doc-1" false =
      .error "DBProvider has not been initialized. Call DBProvider.getInstance().initialize() first." ∧
    unboundHelper.getData none none none none =
      .error "DBProvider has not been initialized. Call DBProvider.getInstance().initialize() first." ∧
    unboundHelper.getSingleDocument none "doc-1" =
      .error "DBProvider has not been initialized. Call DBProvider.getInstance().initialize() first." ∧
    unboundHelper.getDocsByIds none ["doc-1"] =
      .error "DBProvider has not been initialized. Call DBProvider.getInstance().initialize() first." ∧
    unboundHelper.updateField "doc-1" (.obj [("title", .str "x")]) =
      .ok { db := none
            documentPath := ["todos", "doc-1"]
            updateFields := .obj [("title", .str "x")] } ∧
    unboundHelper.deleteDocument "doc-1" =
      .ok { db := none, documentPath := ["todos", "doc-1"] } := by
  refine ⟨rfl, rfl, ?_, ?_, ?_, ?_, ?_, ?_⟩
  · simp [FireworkersDataHelper.addData, FireworkersDataHelper.getDocumentPath,
      FireworkersDataHelper.getDB, unboundHelper, DBProvider.getDB,
      Bind.bind, Except.bind, Pure.pure, Except.pure]
  · simp [FireworkersDataHelper.getData, FireworkersDataHelper.getDB,
      unboundHelper, DBProvider.getDB,
      Bind.bind, Except.bind, Pure.pure, Except.pure]
  · have hlen : ¬ ("doc-1".length = 0) := by decide
    simp [FireworkersDataHelper.getSingleDocument, buildDocumentNameValue,
      FireworkersDataHelper.buildDocumentReferencePath, hlen,
      FireworkersDataHelper.getDB, unboundHelper, DBProvider.getDB,
      Bind.bind, Except.bind, Pure.pure, Except.pure]
  · have hlen : ¬ ("doc-1".length = 0) := by decide
    simp [FireworkersDataHelper.getDocsByIds, MAX_IN_FILTER_VALUES,
      buildDocumentNameValue, buildDocumentNameValueList, hlen,
      FireworkersDataHelper.buildDocumentReferencePath,
      FireworkersDataHelper.getDB, unboundHelper, DBProvider.getDB,
      Bind.bind, Except.bind, Pure.pure, Except.pure]
  · simp [FireworkersDataHelper.updateField, FireworkersDataHelper.getDocumentPath,
      unboundHelper, replaceUndefinedWithNull, replaceUndefinedWithNullObj,
      Bind.bind, Except.bind, Pure.pure, Except.pure]
  · simp [FireworkersDataHelper.deleteDocument, FireworkersDataHelper.getDocumentPath,
      unboundHelper, Bind.bind, Except.bind, Pure.pure, Except.pure]

/-- C10: the request built by `update` pins `currentDocument.exists` to
`true` as its only existence parameter, and its `updateMask.fieldPaths`
entries are exactly the top-level keys of the fields map, in order, with
no parameters beyond those two kinds. -/
theorem claim_C10_update_mask (db : DB) (paths : List String)
    (fields : List (String × NativeValue)) :
    ((update db paths fields).searchParams.filter
        (fun p => p.1 == "currentDocument.exists")) =
      [("currentDocument.exists", "true")] ∧
    ((update db paths fields).searchParams.filter
        (fun p => p.1 == "updateMask.fieldPaths")).map Prod.snd =
      fields.map Prod.fst ∧
    (∀ p ∈ (update db paths fields).searchParams,
      p.1 = "currentDocument.exists" ∨ p.1 = "updateMask.fieldPaths") := by
  refine ⟨?_, ?_, ?_⟩
  · simp only [update, List.filter_cons]
    have hrest : (fields.map
        (fun kv => ("updateMask.fieldPaths", kv.1))).filter
          (fun p => p.1 == "currentDocument.exists") = [] := by
      induction fields with
      | nil => simp
      | cons kv kvs ih => simp [ih]
    simp [hrest]
  · simp only [update, List.filter_cons]
    induction fields with
    | nil => simp
    | cons kv kvs ih => simpa using ih
  · intro p hp
    simp only [update, List.mem_cons] at hp
    rcases hp with rfl | hp
    · exact Or.inl rfl
    · obtain ⟨kv, _, rfl⟩ := List.mem_map.mp hp
      exact Or.inr rfl

/-- Witness for C10: for a two-field map the mask parameters are exactly
the two top-level keys, in order. -/
theorem claim_C10_witness :
    ((update demoDB ["todos", "doc-1"]
        [("a", .num 1), ("b", .null)]).searchParams.filter
      (fun p => p.1 == "updateMask.fieldPaths")).map Prod.snd = ["a", "b"] := by
  have h := (claim_C10_update_mask demoDB ["todos", "doc-1"]
    [("a", .num 1), ("b", .null)]).2.1
  simpa using h

end Fireworkers
